import Mathlib

/-!
Shallow embedding of the genomics-benchmarks core (eauel/genomics-benchmarks),
covering the timing recorder (`BenchmarkProfiler` in core.py), the VCF-to-Zarr
conversion stage (`convert_to_zarr` in data_service.py), the genotype-array
dispatch (`get_genotype_array` / `get_genotype_array_concat` in
data_service.py), the PCA pipeline steps (`_benchmark_pca` and `_pca_ld_prune`
in core.py), and the orchestrator run loop (`Benchmark.run_benchmark` in
core.py).  Wall-clock time is modelled as a `Nat` tick supplied at each call;
the append-only result-log file is modelled as `Option (List Row)` where
`none` means the file does not exist on disk.
-/

namespace GenomicsBenchmarks

/-! ### Timing recorder: core.py `BenchmarkResultsData` / `BenchmarkProfiler` -/

/-- Mirror of `BenchmarkResultsData` (core.py lines 18-28): the four mutable
fields, each initially `None` in Python, hence `Option` here. -/
structure BenchmarkResultsData where
  run_number : Option Nat
  operation_name : Option String
  start_time : Option Nat
  exec_time : Option Int
deriving Repr, DecidableEq

/-- A record emitted by `BenchmarkResultsData.to_dict`: timestamp (derived
from `start_time`), run number, operation label and elapsed time. -/
structure BenchmarkRecord where
  timestamp : Nat
  run_number : Option Nat
  operation : Option String
  exec_time : Int
deriving Repr, DecidableEq

/-- One line of the PSV result-log file: either the header row (written by
pandas when `header=True`) or a data row. -/
inductive Row where
  | header : Row
  | data : BenchmarkRecord → Row
deriving Repr, DecidableEq

/-- The result-log file: `none` when the file does not exist on disk
(`os.path.isfile` is false), otherwise the list of its lines. -/
def LogFile : Type := Option (List Row)

/-- Mirror of `BenchmarkProfiler` state: the `benchmark_running` flag, the
`results` object, and the `{label}.psv` file the profiler appends to. -/
structure ProfilerState where
  benchmark_running : Bool
  results : BenchmarkResultsData
  file : Option (List Row)
deriving Repr, DecidableEq

/-- A fresh profiler (`BenchmarkProfiler.__init__`): flag false, all result
fields `None`, and the log file not yet created. -/
def ProfilerState.init : ProfilerState :=
  ⟨false, ⟨none, none, none, none⟩, none⟩

/-- Mirror of `BenchmarkResultsData.to_dict` restricted to the emitted record:
the pandas row written for one benchmark result. -/
def BenchmarkResultsData.toRecord (r : BenchmarkResultsData) : BenchmarkRecord :=
  ⟨r.start_time.getD 0, r.run_number, r.operation_name, r.exec_time.getD 0⟩

/-- Mirror of `BenchmarkProfiler._record_runtime` (core.py lines 72-87):
`psv_header = not os.path.isfile(output_filename)`, then the file is opened
in append mode (creating it when absent) and pandas writes the header row
exactly when `psv_header` holds, followed by one data row. -/
def recordRuntime (r : BenchmarkResultsData) (file : Option (List Row)) :
    Option (List Row) :=
  let psv_header := file.isNone
  some (file.getD [] ++ (if psv_header then [Row.header] else []) ++
    [Row.data r.toRecord])

/-- Mirror of `BenchmarkProfiler.set_run_number` (core.py lines 44-46): the
run number is stored only when no benchmark is running. -/
def set_run_number (n : Nat) (s : ProfilerState) : ProfilerState :=
  if s.benchmark_running then s
  else { s with results := { s.results with run_number := some n } }

/-- Mirror of `BenchmarkProfiler.start_benchmark` (core.py lines 48-55): when
no benchmark is running, store the operation name, raise the flag and record
the start instant `t`; when one is already running, do nothing at all. -/
def start_benchmark (t : Nat) (op : String) (s : ProfilerState) : ProfilerState :=
  if s.benchmark_running then s
  else
    { s with
      benchmark_running := true
      results := { s.results with operation_name := some op, start_time := some t } }

/-- Mirror of `BenchmarkProfiler.end_benchmark` (core.py lines 57-67): when a
benchmark is running, compute the elapsed time from the stored start instant
to `t`, append one result via `_record_runtime`, and lower the flag; when
none is running, do nothing at all. -/
def end_benchmark (t : Nat) (s : ProfilerState) : ProfilerState :=
  if s.benchmark_running then
    let results' := { s.results with
      exec_time := some ((t : Int) - (s.results.start_time.getD 0 : Int)) }
    { benchmark_running := false
      results := results'
      file := recordRuntime results' s.file }
  else s

/-- The data rows of a log file, in order (ignoring the header row). -/
def dataRows (file : Option (List Row)) : List BenchmarkRecord :=
  (file.getD []).filterMap fun r =>
    match r with
    | Row.header => none
    | Row.data rec => some rec

/-- The number of header rows present in a log file. -/
def headerCount (file : Option (List Row)) : Nat :=
  ((file.getD []).filter fun r =>
    match r with
    | Row.header => true
    | Row.data _ => false).length

/-! ### Conversion stage: data_service.py `convert_to_zarr` -/

/-- Mirror of `config.VCFtoZarrConfigurationRepresentation` as consumed by
`convert_to_zarr`: optional alt number, optional chunk geometry, compressor
name, the Blosc parameters, and the field selection. -/
structure VCFtoZarrConfig where
  alt_number : Option Nat
  chunk_length : Option Nat
  chunk_width : Option Nat
  compressor : String
  blosc_compression_algorithm : String
  blosc_compression_level : Nat
  blosc_shuffle_mode : Int
  fields : Option (List String)
deriving Repr, DecidableEq

/-- A VCF source file, reduced to the data `convert_to_zarr` reads from it:
the per-variant alternate-allele counts (the `numalt` field). -/
structure VCFFile where
  numalt : List Nat
deriving Repr, DecidableEq

/-- Mirror of `allel.io.vcf_read.DEFAULT_CHUNK_LENGTH`. -/
def DEFAULT_CHUNK_LENGTH : Nat := 65536

/-- Mirror of `allel.io.vcf_read.DEFAULT_CHUNK_WIDTH`. -/
def DEFAULT_CHUNK_WIDTH : Nat := 64

/-- Mirror of `np.max` over a list of naturals (total here with base 0; NumPy
raises on an empty array, so callers are used with nonempty input). -/
def npMax (l : List Nat) : Nat := l.foldl Nat.max 0

/-- The externally visible actions of `convert_to_zarr`, in program order:
the pass-1 scan `allel.read_vcf(input, fields=['numalt'])`, the
`np.max(numalt)` computation, and the pass-2 write
`allel.vcf_to_zarr(..., alt_number, chunk_length, chunk_width)` to the
destination path. -/
inductive ConvAction where
  | prescanRead : List String → ConvAction
  | computeMax : ConvAction
  | writeZarr : Nat → Nat → Nat → ConvAction
deriving Repr, DecidableEq

/-- Outcome of `convert_to_zarr`: the trace of actions performed, and the
error message when a `ValueError` was raised (actions before the raise have
already happened). -/
structure ConvResult where
  trace : List ConvAction
  error : Option String
deriving Repr, DecidableEq

/-- Mirror of `data_service.convert_to_zarr` (data_service.py lines 294-368).
With `conversion_config=None` the body is skipped.  Otherwise: when
`alt_number` is unset, pass 1 reads only the `numalt` field of the whole
source and takes its maximum; when set, the configured value is used and no
scan occurs.  Chunk geometry falls back to the `allel` defaults.  A
compressor other than `"Blosc"` raises
`ValueError("Unexpected compressor type specified.")` before the pass-2
write; otherwise `allel.vcf_to_zarr` writes to the destination. -/
def convert_to_zarr (vcf : VCFFile) (conversion_config : Option VCFtoZarrConfig) :
    ConvResult :=
  match conversion_config with
  | none => ⟨[], none⟩
  | some cfg =>
    let pre : List ConvAction × Nat :=
      match cfg.alt_number with
      | none => ([ConvAction.prescanRead ["numalt"], ConvAction.computeMax],
                 npMax vcf.numalt)
      | some a => ([], a)
    let chunk_length := cfg.chunk_length.getD DEFAULT_CHUNK_LENGTH
    let chunk_width := cfg.chunk_width.getD DEFAULT_CHUNK_WIDTH
    if cfg.compressor = "Blosc" then
      ⟨pre.1 ++ [ConvAction.writeZarr pre.2 chunk_length chunk_width], none⟩
    else
      ⟨pre.1, some "Unexpected compressor type specified."⟩

/-- Whether the pass-1 scan of the `numalt` field occurred in a conversion. -/
def didPrescan (r : ConvResult) : Bool :=
  r.trace.any fun a =>
    match a with
    | ConvAction.prescanRead _ => true
    | _ => false

/-- The alt-allele ceiling used by the pass-2 write, when a write occurred. -/
def writtenAlt (r : ConvResult) : Option Nat :=
  r.trace.findSome? fun a =>
    match a with
    | ConvAction.writeZarr alt _ _ => some alt
    | _ => none

/-- Whether any write to the destination path occurred in a conversion. -/
def didWrite (r : ConvResult) : Bool :=
  r.trace.any fun a =>
    match a with
    | ConvAction.writeZarr _ _ _ => true
    | _ => false

/-! ### Genotype-array dispatch: data_service.py `get_genotype_array` and
`get_genotype_array_concat` -/

/-- Raw call data wrapped by a genotype array: variants × samples × ploidy. -/
def GData : Type := List (List (List Int))
deriving DecidableEq

/-- The `calldata` group of a Zarr callset, with its optional `GT` and
`genotype` keys. -/
structure CallData where
  GT : Option GData
  genotype : Option GData
deriving DecidableEq

/-- A Zarr callset as read by the dispatch functions: an optional `calldata`
group. -/
structure Callset where
  calldata : Option CallData
deriving DecidableEq

/-- Modelled from the spec: the three backend-kind constants
`GENOTYPE_ARRAY_NORMAL`, `GENOTYPE_ARRAY_CHUNKED` and `GENOTYPE_ARRAY_DASK`
are declared in `config.py` outside the provided sources; the spec treats
them as three distinct enumerated kinds (Eager, ChunkedOnDisk,
DistributedLazy), so they are modelled as three distinct values. -/
def GENOTYPE_ARRAY_NORMAL : Nat := 0

/-- Modelled from the spec: the ChunkedOnDisk backend-kind constant, distinct
from the other two. -/
def GENOTYPE_ARRAY_CHUNKED : Nat := 1

/-- Modelled from the spec: the Distributed/Dask backend-kind constant,
distinct from the other two. -/
def GENOTYPE_ARRAY_DASK : Nat := 2

/-- A produced genotype-array handle: the backend wrapper applied to the call
data the source passed to it (`allel.GenotypeArray`, `allel.GenotypeDaskArray`
or `allel.GenotypeChunkedArray`). -/
inductive GenotypeHandle where
  | normal : Option GData → GenotypeHandle
  | dask : Option GData → GenotypeHandle
  | chunked : Option GData → GenotypeHandle
deriving DecidableEq

/-- Mirror of `data_service.get_callset_genotype_data` (lines 371-387): look
for `calldata`, then for the `GT` key, then for the `genotype` key; `None`
when absent. -/
def get_callset_genotype_data (callset : Callset) : Option GData :=
  match callset.calldata with
  | none => none
  | some cd =>
    match cd.GT with
    | some g => some g
    | none =>
      match cd.genotype with
      | some g => some g
      | none => none

/-- Mirror of `data_service.get_genotype_array` (lines 417-427): dispatch on
the backend kind, returning the wrapped call data, and `None` for an
unrecognized kind. -/
def get_genotype_array (callset : Callset) (genotype_array_type : Nat) :
    Option GenotypeHandle :=
  let gtz := get_callset_genotype_data callset
  if genotype_array_type = GENOTYPE_ARRAY_NORMAL then
    some (GenotypeHandle.normal gtz)
  else if genotype_array_type = GENOTYPE_ARRAY_DASK then
    some (GenotypeHandle.dask gtz)
  else if genotype_array_type = GENOTYPE_ARRAY_CHUNKED then
    some (GenotypeHandle.chunked gtz)
  else
    none

/-- Concatenation along the variant axis of the gathered call-data list
(`np.concatenate` / `da.concatenate` with `axis=0`); `none` when any input is
missing, since the external routine cannot consume a `None` entry. -/
def concatGData (l : List (Option GData)) : Option GData :=
  l.foldr (fun o acc =>
    match o, acc with
    | some g, some a => some (List.append g a)
    | _, _ => none) (some [])

/-- Mirror of `data_service.get_genotype_array_concat` (lines 390-414): with
exactly one callset, delegate to `get_genotype_array`; otherwise gather every
callset's call data, concatenate along the variant axis, dispatch on the
backend kind, and raise `ValueError` for an unrecognized kind. -/
def get_genotype_array_concat (callsets : List Callset)
    (genotype_array_type : Nat) : Except String (Option GenotypeHandle) :=
  if callsets.length = 1 then
    Except.ok (get_genotype_array (callsets.headD ⟨none⟩) genotype_array_type)
  else
    let gtz_list := callsets.map get_callset_genotype_data
    if genotype_array_type = GENOTYPE_ARRAY_DASK then
      Except.ok (some (GenotypeHandle.dask (concatGData gtz_list)))
    else if genotype_array_type = GENOTYPE_ARRAY_CHUNKED then
      Except.ok (some (GenotypeHandle.chunked (concatGData gtz_list)))
    else if genotype_array_type = GENOTYPE_ARRAY_NORMAL then
      Except.ok (some (GenotypeHandle.normal (concatGData gtz_list)))
    else
      Except.error "Error: Invalid option specified for genotype_array_type."

/-! ### PCA pipeline steps: core.py `_benchmark_pca` and `_pca_ld_prune` -/

/-- Mirror of scikit-allel `AlleleCountsArray.max_allele` for one variant row:
start from `-1` and, scanning allele indices left to right, keep the latest
index whose count is positive. -/
def maxAllele (row : List Nat) : Int :=
  row.enum.foldl (fun out p => if 0 < p.2 then (p.1 : Int) else out) (-1)

/-- Mirror of `ac[:, :2].min(axis=1)` for one variant row: the minimum of the
first two allele counts (NumPy raises on an empty reduction; total here). -/
def minFirstTwo (row : List Nat) : Nat :=
  match row with
  | a :: b :: _ => Nat.min a b
  | [a] => a
  | [] => 0

/-- Mirror of the filter expression of core.py line 268:
`flt = (ac.max_allele() == 1) & (ac[:, :2].min(axis=1) > 1)`, one Boolean per
variant of the allele-count matrix. -/
def pcaFilterMask (ac : List (List Nat)) : List Bool :=
  ac.map fun row => (maxAllele row == 1) && decide (1 < minFirstTwo row)

/-- Mirror of `np.count_nonzero` on a Boolean vector. -/
def npCountNonzero (mask : List Bool) : Nat :=
  (mask.filter fun b => b).length

/-- Mirror of `compress(mask, axis=0)`: keep the rows whose mask entry is
true, in order (a shorter mask truncates, as in NumPy). -/
def npCompress {α : Type} (mask : List Bool) (xs : List α) : List α :=
  ((mask.zip xs).filter fun p => p.1).map fun p => p.2

/-- Mirror of the singleton/multiallelic filter step of `_benchmark_pca`
(core.py lines 267-277): when the mask has at least one true entry, compress
the genotype data by it along the variant axis; otherwise skip the filter,
keep the data unchanged and print a warning (returned as the Boolean
flag). -/
def pcaFilterStep {α : Type} (gt : List α) (ac : List (List Nat)) :
    List α × Bool :=
  let flt := pcaFilterMask ac
  let flt_count := npCountNonzero flt
  if 0 < flt_count then (npCompress flt gt, false)
  else (gt, true)

/-- Mirror of `gn.take(vidx, axis=0)`: the rows at the given indices, in the
order of the index list (out-of-range indices, which NumPy rejects, are
skipped). -/
def npTake {α : Type} (gn : List α) (idx : List Nat) : List α :=
  idx.filterMap fun i => gn.get? i

/-- Contract of `np.random.choice(count, n, replace=False)` (core.py line
286): the returned index list has length `n`, has no duplicates, and draws
from `0..count-1`. -/
abbrev choiceContract (count n : Nat) (choice : List Nat) : Prop :=
  choice.length = n ∧ choice.Nodup ∧ ∀ i ∈ choice, i < count

/-- Mirror of the subsampling step of `_benchmark_pca` (core.py lines
284-288): sort the randomly chosen indices ascending (`vidx.sort()`), then
slice the dosage matrix by them (`gn.take(vidx, axis=0)`).  The random draw
itself is the external `np.random.choice` call, supplied here as `choice`. -/
def pcaSubsample {α : Type} (gn : List α) (choice : List Nat) : List α :=
  npTake gn (List.insertionSort (· ≤ ·) choice)

/-- The sorted index vector of the subsampling step (`vidx` after
`vidx.sort()`). -/
def pcaSubsampleIdx (choice : List Nat) : List Nat :=
  List.insertionSort (· ≤ ·) choice

/-- Mirror of `Benchmark._pca_ld_prune` (core.py lines 329-342): iterate
`n_iter` rounds; each round asks the external `allel.locate_unlinked` for a
retention mask over the current dosage matrix and compresses the matrix by it
along the variant axis.  `locate` stands for the external windowed scan. -/
def pca_ld_prune {α : Type} (locate : List α → List Bool) (gn : List α) :
    Nat → List α
  | 0 => gn
  | n + 1 =>
    let g := pca_ld_prune locate gn n
    npCompress (locate g) g

/-! ### Orchestrator run loop: core.py `Benchmark.run_benchmark` -/

/-- Mirror of the fields of `config.BenchmarkConfigurationRepresentation`
consumed by `run_benchmark`. -/
structure BenchConf where
  benchmark_number_runs : Nat
  benchmark_data_input : String
  benchmark_aggregations : Bool
  benchmark_pca : Bool
deriving Repr, DecidableEq

/-- The externally visible events of one benchmark session, in program
order: the wipe of the working Zarr benchmark directory
(`remove_directory_tree`), the profiler run-number update, the VCF-to-Zarr
conversion, the dataset load, the genotype-array creation, and the two
benchmark suites. -/
inductive RunEvent where
  | wipe : RunEvent
  | setRun : Nat → RunEvent
  | convertToZarr : RunEvent
  | loadZarr : RunEvent
  | createGenotypeArray : RunEvent
  | aggregations : RunEvent
  | pca : RunEvent
deriving Repr, DecidableEq

/-- The events of the load-and-benchmark tail of one run (core.py lines
143-156): load the Zarr dataset, create the genotype array, then the
aggregation and PCA suites when enabled. -/
def loadAndBench (conf : BenchConf) : List RunEvent :=
  [RunEvent.loadZarr, RunEvent.createGenotypeArray] ++
  (if conf.benchmark_aggregations then [RunEvent.aggregations] else []) ++
  (if conf.benchmark_pca then [RunEvent.pca] else [])

/-- One iteration of the run loop (core.py lines 115-161): wipe the working
directory, set the run number, resolve the data-input mode ("vcf" converts
after checking the source file exists, "zarr" points at the pre-converted
store, anything else is `exit(1)`), then check the resolved Zarr path and run
the enabled suites, or `exit(1)` when it is missing.  `vcfOk` stands for
`os.path.isfile(input_vcf_path)` and `datasetOk` for the
`benchmark_zarr_path != "" and os.path.isdir(benchmark_zarr_path)` check.
The second component is the process exit code when the run aborts. -/
def runOnce (conf : BenchConf) (vcfOk datasetOk : Bool) (k : Nat) :
    List RunEvent × Option Nat :=
  let pre := [RunEvent.wipe, RunEvent.setRun k]
  if conf.benchmark_data_input = "vcf" then
    if vcfOk then
      if datasetOk then
        (pre ++ [RunEvent.convertToZarr] ++ loadAndBench conf, none)
      else (pre ++ [RunEvent.convertToZarr], some 1)
    else (pre, some 1)
  else if conf.benchmark_data_input = "zarr" then
    if datasetOk then (pre ++ loadAndBench conf, none)
    else (pre, some 1)
  else (pre, some 1)

/-- The run loop over a list of run numbers, stopping at the first `exit`. -/
def runLoop (conf : BenchConf) (vcfOk datasetOk : Bool) :
    List Nat → List RunEvent × Option Nat
  | [] => ([], none)
  | k :: ks =>
    match runOnce conf vcfOk datasetOk k with
    | (evs, some c) => (evs, some c)
    | (evs, none) =>
      let r := runLoop conf vcfOk datasetOk ks
      (evs ++ r.1, r.2)

/-- Mirror of `Benchmark.run_benchmark` (core.py lines 110-161): when the
configuration is present (the source also guards `data_dirs`, folded into
the same option here), iterate run numbers `1` to `benchmark_number_runs`.  -/
def run_benchmark (conf : Option BenchConf) (vcfOk datasetOk : Bool) :
    List RunEvent × Option Nat :=
  match conf with
  | none => ([], none)
  | some c => runLoop c vcfOk datasetOk (List.range' 1 c.benchmark_number_runs)

/-- The run-number values appearing in a session trace, in order. -/
def runNumbers (evs : List RunEvent) : List Nat :=
  evs.filterMap fun e =>
    match e with
    | RunEvent.setRun n => some n
    | _ => none

/-- The mode-resolution-and-benchmark events of one successful run: the
conversion (in "vcf" mode) followed by the load-and-benchmark tail. -/
def runEventsOk (conf : BenchConf) : List RunEvent :=
  (if conf.benchmark_data_input = "vcf" then [RunEvent.convertToZarr] else []) ++
  loadAndBench conf

/-- A profiler state with an operation in flight, used to exercise the
re-entrant-start behavior on a concrete input. -/
def runningState : ProfilerState :=
  ⟨true, ⟨some 1, some "op", some 4, none⟩, some [Row.header]⟩

/-! ### Helper lemmas -/

theorem dataRows_recordRuntime (r : BenchmarkResultsData)
    (f : Option (List Row)) :
    dataRows (recordRuntime r f) = dataRows f ++ [r.toRecord] := by
  cases f <;> simp [dataRows, recordRuntime, List.filterMap_append]

theorem headerCount_record_some (r : BenchmarkResultsData) (ls : List Row) :
    headerCount (recordRuntime r (some ls)) = headerCount (some ls) := by
  simp [headerCount, recordRuntime, List.filter_append]

theorem headerCount_foldl_record (rs : List BenchmarkResultsData) :
    ∀ ls : List Row,
      headerCount (rs.foldl (fun f x => recordRuntime x f) (some ls)) =
        headerCount (some ls) := by
  induction rs with
  | nil => intro ls; rfl
  | cons x xs ih =>
    intro ls
    have h1 : recordRuntime x (some ls) =
        some (ls ++ [Row.data x.toRecord]) := by
      simp [recordRuntime]
    rw [List.foldl_cons, h1, ih]
    have h2 := headerCount_record_some x ls
    rw [h1] at h2
    exact h2

/-! ### Claim theorems: timing recorder -/

/-- C10: calling `end_benchmark` when no benchmark is running is a silent
no-op — the profiler state (results fields, running flag, and the log file)
is unchanged and no record is appended, so a lone end can never produce a
record. -/
theorem end_benchmark_noop (t : Nat) (s : ProfilerState)
    (h : s.benchmark_running = false) : end_benchmark t s = s := by
  simp [end_benchmark, h]

/-- Witness for C10 at the freshly initialized profiler. -/
theorem end_benchmark_noop_witness :
    ProfilerState.init.benchmark_running = false ∧
    end_benchmark 5 ProfilerState.init = ProfilerState.init :=
  ⟨rfl, end_benchmark_noop 5 ProfilerState.init rfl⟩

/-- C6: calling `start_benchmark` while a benchmark is already running is a
silent no-op (the in-flight label and start instant are unchanged), and a
begin-begin-end sequence appends exactly one record, carrying the first
begin's operation name and start instant. -/
theorem start_benchmark_reentrant_noop (s : ProfilerState) (t1 t2 t3 : Nat)
    (op1 op2 : String) :
    (s.benchmark_running = true → start_benchmark t2 op2 s = s) ∧
    (s.benchmark_running = false →
      start_benchmark t2 op2 (start_benchmark t1 op1 s) =
        start_benchmark t1 op1 s ∧
      dataRows (end_benchmark t3
          (start_benchmark t2 op2 (start_benchmark t1 op1 s))).file =
        dataRows s.file ++
          [⟨t1, s.results.run_number, some op1, (t3 : Int) - (t1 : Int)⟩]) := by
  constructor
  · intro h
    simp [start_benchmark, h]
  · intro h
    constructor
    · simp [start_benchmark, h]
    · simp [start_benchmark, end_benchmark, h, dataRows_recordRuntime,
        BenchmarkResultsData.toRecord]

/-- Witness for C6: the second begin is ignored on a running profiler, and a
begin-begin-end sequence from the fresh profiler appends exactly the first
begin's record. -/
theorem start_benchmark_reentrant_noop_witness :
    (start_benchmark 7 "b" runningState = runningState) ∧
    (start_benchmark 7 "b" (start_benchmark 1 "a" ProfilerState.init) =
      start_benchmark 1 "a" ProfilerState.init ∧
     dataRows (end_benchmark 9
         (start_benchmark 7 "b" (start_benchmark 1 "a" ProfilerState.init))).file =
       dataRows ProfilerState.init.file ++
         [⟨1, ProfilerState.init.results.run_number, some "a",
           (9 : Int) - (1 : Int)⟩]) :=
  ⟨(start_benchmark_reentrant_noop runningState 1 7 9 "a" "b").1 rfl,
   (start_benchmark_reentrant_noop ProfilerState.init 1 7 9 "a" "b").2 rfl⟩

/-- C8: the header row is written exactly when the destination file did not
previously exist; an emission to an existing file appends exactly one data
row and no header; and over any sequence of emissions starting from a
nonexistent file, the header appears exactly once. -/
theorem record_runtime_header_once (r r0 : BenchmarkResultsData)
    (ls : List Row) (rs : List BenchmarkResultsData) :
    recordRuntime r none = some [Row.header, Row.data r.toRecord] ∧
    recordRuntime r (some ls) = some (ls ++ [Row.data r.toRecord]) ∧
    headerCount (rs.foldl (fun f x => recordRuntime x f)
      (recordRuntime r0 none)) = 1 := by
  refine ⟨by simp [recordRuntime], by simp [recordRuntime], ?_⟩
  have h0 : recordRuntime r0 none =
      some [Row.header, Row.data r0.toRecord] := by
    simp [recordRuntime]
  rw [h0, headerCount_foldl_record]
  rfl

/-! ### Claim theorems: conversion stage -/

theorem foldl_max_init_le (l : List Nat) (a : Nat) : a ≤ l.foldl Nat.max a := by
  induction l generalizing a with
  | nil => exact Nat.le_refl a
  | cons x xs ih =>
    exact Nat.le_trans (Nat.le_max_left a x) (ih (Nat.max a x))

theorem mem_le_foldl_max (l : List Nat) (a : Nat) :
    ∀ x ∈ l, x ≤ l.foldl Nat.max a := by
  induction l generalizing a with
  | nil => intro x hx; cases hx
  | cons y ys ih =>
    intro x hx
    rcases List.mem_cons.mp hx with h | h
    · subst h
      exact Nat.le_trans (Nat.le_max_right a x) (foldl_max_init_le ys (Nat.max a x))
    · exact ih (Nat.max a y) x h

theorem foldl_max_mem (l : List Nat) (a : Nat) : l.foldl Nat.max a ∈ a :: l := by
  induction l generalizing a with
  | nil => simp
  | cons x xs ih =>
    have h := ih (Nat.max a x)
    rw [List.foldl_cons]
    rcases List.mem_cons.mp h with h1 | h1
    · rw [h1]
      have h2 : Nat.max a x = a ∨ Nat.max a x = x := by
        show max a x = a ∨ max a x = x
        omega
      rcases h2 with h2 | h2 <;> simp [h2]
    · exact List.mem_cons.mpr (Or.inr (List.mem_cons.mpr (Or.inr h1)))

theorem npMax_mem (l : List Nat) (h : l ≠ []) : npMax l ∈ l := by
  rcases List.mem_cons.mp (foldl_max_mem l 0) with h0 | h0
  · cases l with
    | nil => exact absurd rfl h
    | cons y ys =>
      have hy : y ≤ npMax (y :: ys) :=
        mem_le_foldl_max (y :: ys) 0 y (List.mem_cons_self y ys)
      have hz : npMax (y :: ys) = 0 := h0
      have hy0 : y = 0 := Nat.le_antisymm (hz ▸ hy) (Nat.zero_le y)
      show npMax (y :: ys) ∈ y :: ys
      rw [hz, ← hy0]
      exact List.mem_cons_self y ys
  · exact h0

/-- C1: when `alt_number` is unset, `convert_to_zarr` first runs a pre-scan
pass reading only the `numalt` field of the whole source, and the alt-allele
ceiling used by the subsequent write equals the maximum of that field (an
element of the field that bounds every element); when `alt_number` is set,
the configured value is used and no pre-scan occurs. -/
theorem convert_alt_number_prescan (vcf : VCFFile) (cfg : VCFtoZarrConfig)
    (hb : cfg.compressor = "Blosc") (hne : vcf.numalt ≠ []) :
    (cfg.alt_number = none →
      (convert_to_zarr vcf (some cfg)).trace =
        [ConvAction.prescanRead ["numalt"], ConvAction.computeMax,
         ConvAction.writeZarr (npMax vcf.numalt)
           (cfg.chunk_length.getD DEFAULT_CHUNK_LENGTH)
           (cfg.chunk_width.getD DEFAULT_CHUNK_WIDTH)] ∧
      npMax vcf.numalt ∈ vcf.numalt ∧
      (∀ x ∈ vcf.numalt, x ≤ npMax vcf.numalt)) ∧
    (∀ a, cfg.alt_number = some a →
      didPrescan (convert_to_zarr vcf (some cfg)) = false ∧
      writtenAlt (convert_to_zarr vcf (some cfg)) = some a) := by
  constructor
  · intro hn
    refine ⟨?_, npMax_mem vcf.numalt hne, mem_le_foldl_max vcf.numalt 0⟩
    simp [convert_to_zarr, hn, hb]
  · intro a ha
    constructor
    · simp [convert_to_zarr, ha, hb, didPrescan]
    · simp [convert_to_zarr, ha, hb, writtenAlt]

/-- A conversion configuration with `alt_number` unset and the Blosc
compressor, matching the pre-scan scenario. -/
def cfgPreScan : VCFtoZarrConfig :=
  ⟨none, none, none, "Blosc", "zstd", 1, -1, none⟩

/-- A conversion configuration with `alt_number = 5` and the Blosc
compressor. -/
def cfgAltFive : VCFtoZarrConfig :=
  ⟨some 5, none, none, "Blosc", "zstd", 1, -1, none⟩

/-- Witness for C1: a source whose variants have at most 3 alternate alleles
and `alt_number` unset yields a pre-scan followed by a write with ceiling 3;
a configured `alt_number = 5` yields no pre-scan and ceiling 5. -/
theorem convert_alt_number_prescan_witness :
    ((convert_to_zarr ⟨[1, 3, 2]⟩ (some cfgPreScan)).trace =
      [ConvAction.prescanRead ["numalt"], ConvAction.computeMax,
       ConvAction.writeZarr 3 65536 64]) ∧
    didPrescan (convert_to_zarr ⟨[1, 3, 2]⟩ (some cfgAltFive)) = false ∧
    writtenAlt (convert_to_zarr ⟨[1, 3, 2]⟩ (some cfgAltFive)) = some 5 := by
  have h1 := (convert_alt_number_prescan ⟨[1, 3, 2]⟩ cfgPreScan rfl
    (by decide)).1 rfl
  have h2 := (convert_alt_number_prescan ⟨[1, 3, 2]⟩ cfgAltFive rfl
    (by decide)).2 5 rfl
  exact ⟨h1.1, h2.1, h2.2⟩

/-- C2: a conversion configuration whose compressor is not "Blosc" makes
`convert_to_zarr` raise the configuration `ValueError` before any write to
the destination path occurs, while a "Blosc" compressor raises no error. -/
theorem convert_compressor_error (vcf : VCFFile) (cfg : VCFtoZarrConfig) :
    (cfg.compressor ≠ "Blosc" →
      (convert_to_zarr vcf (some cfg)).error =
        some "Unexpected compressor type specified." ∧
      didWrite (convert_to_zarr vcf (some cfg)) = false) ∧
    (cfg.compressor = "Blosc" →
      (convert_to_zarr vcf (some cfg)).error = none) := by
  constructor
  · intro h
    cases halt : cfg.alt_number <;>
      simp [convert_to_zarr, halt, h, didWrite]
  · intro h
    cases halt : cfg.alt_number <;>
      simp [convert_to_zarr, halt, h]

/-- A conversion configuration requesting the unsupported "Gzip"
compressor. -/
def cfgGzip : VCFtoZarrConfig :=
  ⟨some 3, none, none, "Gzip", "zstd", 1, -1, none⟩

/-- Witness for C2: the "Gzip" compressor raises the configuration error
with no write performed, and the "Blosc" compressor raises none. -/
theorem convert_compressor_error_witness :
    ((convert_to_zarr ⟨[1, 3, 2]⟩ (some cfgGzip)).error =
      some "Unexpected compressor type specified." ∧
     didWrite (convert_to_zarr ⟨[1, 3, 2]⟩ (some cfgGzip)) = false) ∧
    (convert_to_zarr ⟨[1, 3, 2]⟩ (some cfgAltFive)).error = none :=
  ⟨(convert_compressor_error ⟨[1, 3, 2]⟩ cfgGzip).1 (by decide),
   (convert_compressor_error ⟨[1, 3, 2]⟩ cfgAltFive).2 rfl⟩

/-! ### Claim theorems: PCA pipeline -/

/-- C3: when the singleton/multiallelic filter mask has zero true entries,
the filter step keeps the genotype data unchanged and reports the warning
(no exception is raised, the step being total); when the mask has at least
one true entry, the data is compressed by the mask along the variant
axis. -/
theorem pca_filter_empty_mask (gt : List (List Int)) (ac : List (List Nat)) :
    (npCountNonzero (pcaFilterMask ac) = 0 →
      pcaFilterStep gt ac = (gt, true)) ∧
    (0 < npCountNonzero (pcaFilterMask ac) →
      pcaFilterStep gt ac = (npCompress (pcaFilterMask ac) gt, false)) := by
  constructor
  · intro h
    simp [pcaFilterStep, h]
  · intro h
    simp [pcaFilterStep, h]

/-- Witness for C3: an allele-count matrix whose mask is all-false leaves
the genotype data untouched with a warning, and one with a single true
entry compresses down to the matching variant. -/
theorem pca_filter_empty_mask_witness :
    npCountNonzero (pcaFilterMask [[5, 0, 0]]) = 0 ∧
    pcaFilterStep ([[1, 1], [2, 2]] : List (List Int)) [[5, 0, 0]] =
      ([[1, 1], [2, 2]], true) ∧
    0 < npCountNonzero (pcaFilterMask [[0, 3, 0], [2, 3, 0]]) ∧
    pcaFilterStep ([[1, 1], [2, 2]] : List (List Int)) [[0, 3, 0], [2, 3, 0]] =
      (npCompress (pcaFilterMask [[0, 3, 0], [2, 3, 0]])
        ([[1, 1], [2, 2]] : List (List Int)), false) :=
  ⟨by decide,
   (pca_filter_empty_mask [[1, 1], [2, 2]] [[5, 0, 0]]).1 (by decide),
   by decide,
   (pca_filter_empty_mask [[1, 1], [2, 2]] [[0, 3, 0], [2, 3, 0]]).2
     (by decide)⟩

theorem npCompress_length_le {α : Type} (mask : List Bool) (xs : List α) :
    (npCompress mask xs).length ≤ xs.length := by
  calc (npCompress mask xs).length
      = ((mask.zip xs).filter fun p => p.1).length := by
        simp [npCompress]
    _ ≤ (mask.zip xs).length := List.length_filter_le _ _
    _ ≤ xs.length := by
        rw [List.length_zip]
        exact Nat.min_le_right _ _

/-- C5: in `_pca_ld_prune`, the retained-variant count after round `i + 1`
is at most the retained count after round `i`, whatever retention masks the
windowed scan produces: each round compresses the dosage matrix by a Boolean
mask, so the count is monotonically non-increasing across rounds. -/
theorem pca_ld_prune_monotone {α : Type} (locate : List α → List Bool)
    (gn : List α) (i : Nat) :
    (pca_ld_prune locate gn (i + 1)).length ≤
      (pca_ld_prune locate gn i).length := by
  show (npCompress (locate (pca_ld_prune locate gn i))
    (pca_ld_prune locate gn i)).length ≤ (pca_ld_prune locate gn i).length
  exact npCompress_length_le _ _

theorem filterMap_get_range {α : Type} (gn : List α) :
    (List.range gn.length).filterMap (fun i => gn.get? i) = gn := by
  induction gn with
  | nil => simp
  | cons x xs ih =>
    rw [List.length_cons, List.range_succ_eq_map, List.filterMap_cons]
    simp only [List.get?_cons_zero, List.filterMap_map]
    have heq : ((fun i => (x :: xs).get? i) ∘ Nat.succ) =
        fun i => xs.get? i := by
      funext i
      simp [Function.comp]
    rw [heq, ih]

theorem npTake_length {α : Type} (gn : List α) (idx : List Nat)
    (hb : ∀ i ∈ idx, i < gn.length) :
    (npTake gn idx).length = idx.length := by
  induction idx with
  | nil => rfl
  | cons i is ih =>
    have hi : i < gn.length := hb i (List.mem_cons_self i is)
    have hrest : ∀ j ∈ is, j < gn.length :=
      fun j hj => hb j (List.mem_cons_of_mem i hj)
    show (List.filterMap (fun j => gn.get? j) (i :: is)).length =
      (i :: is).length
    rw [List.filterMap_cons_some (List.get?_eq_get hi)]
    have h2 : (List.filterMap (fun j => gn.get? j) is).length = is.length :=
      ih hrest
    simp [h2]

theorem sorted_nodup_bounded_eq_range (l : List Nat) (n : Nat)
    (hs : l.Sorted (· ≤ ·)) (hd : l.Nodup) (hlen : l.length = n)
    (hb : ∀ i ∈ l, i < n) : l = List.range n := by
  have hperm : List.Perm l (List.range n) := by
    apply List.perm_of_nodup_nodup_toFinset_eq hd (List.nodup_range n)
    apply Finset.eq_of_subset_of_card_le
    · intro a ha
      rw [List.mem_toFinset] at ha
      rw [List.mem_toFinset, List.mem_range]
      exact hb a ha
    · rw [List.toFinset_card_of_nodup hd, hlen,
        List.toFinset_card_of_nodup (List.nodup_range n), List.length_range]
  exact List.eq_of_perm_of_sorted hperm hs (List.sorted_le_range n)

theorem npTake_sublist {α : Type} (gn : List α) (idx : List Nat)
    (hs : idx.Sorted (· < ·)) (hb : ∀ i ∈ idx, i < gn.length) :
    List.Sublist (npTake gn idx) gn := by
  classical
  haveI : IsAntisymm Nat (· < ·) :=
    ⟨fun a b h1 h2 => absurd h2 (Nat.lt_asymm h1)⟩
  have hd : idx.Nodup := hs.imp fun h => ne_of_lt h
  have hidx : idx = (List.range gn.length).filter
      (fun i => decide (i ∈ idx)) := by
    apply List.eq_of_perm_of_sorted ?_ hs
      (List.Pairwise.filter _ (List.sorted_lt_range gn.length))
    apply List.perm_of_nodup_nodup_toFinset_eq hd
      ((List.nodup_range gn.length).filter _)
    ext a
    simp only [List.mem_toFinset, List.mem_filter, List.mem_range,
      decide_eq_true_eq]
    exact ⟨fun h => ⟨hb a h, h⟩, fun h => h.2⟩
  rw [hidx]
  have hsub : List.Sublist
      (npTake gn ((List.range gn.length).filter fun i => decide (i ∈ idx)))
      (npTake gn (List.range gn.length)) :=
    List.Sublist.filterMap _ (List.filter_sublist _)
  rw [show npTake gn (List.range gn.length) = gn from filterMap_get_range gn]
    at hsub
  exact hsub

/-- C4: the subsampling step's sorted index vector has no duplicates, is
ascending, and has exactly `min(variant_count, subset_size)` entries; the
reduced dosage matrix has that many rows and is a sublist of the original
matrix (the original variant order is preserved); and when `subset_size`
covers the whole matrix the entire matrix is selected unchanged.  `choice`
is the output of the external `np.random.choice(count, n, replace=False)`
draw, constrained by its contract. -/
theorem pca_subsample_spec {α : Type} (gn : List α) (subset_size : Nat)
    (choice : List Nat)
    (hc : choiceContract gn.length (min gn.length subset_size) choice) :
    (pcaSubsampleIdx choice).Nodup ∧
    (pcaSubsampleIdx choice).Sorted (· ≤ ·) ∧
    (pcaSubsampleIdx choice).length = min gn.length subset_size ∧
    List.Sublist (pcaSubsample gn choice) gn ∧
    (pcaSubsample gn choice).length = min gn.length subset_size ∧
    (gn.length ≤ subset_size → pcaSubsample gn choice = gn) := by
  obtain ⟨hlen, hnd, hbound⟩ := hc
  have hperm : List.Perm (pcaSubsampleIdx choice) choice :=
    List.perm_insertionSort _ _
  have hnd' : (pcaSubsampleIdx choice).Nodup := hperm.nodup_iff.mpr hnd
  have hsorted : (pcaSubsampleIdx choice).Sorted (· ≤ ·) :=
    List.sorted_insertionSort _ _
  have hbound' : ∀ i ∈ pcaSubsampleIdx choice, i < gn.length :=
    fun i hi => hbound i (hperm.mem_iff.mp hi)
  have hlen' : (pcaSubsampleIdx choice).length = min gn.length subset_size := by
    rw [hperm.length_eq, hlen]
  have hlt : (pcaSubsampleIdx choice).Sorted (· < ·) :=
    hsorted.lt_of_le hnd'
  refine ⟨hnd', hsorted, hlen', npTake_sublist gn _ hlt hbound', ?_, ?_⟩
  · show (npTake gn (pcaSubsampleIdx choice)).length = min gn.length subset_size
    rw [npTake_length gn _ hbound', hlen']
  · intro hfull
    have hmin : min gn.length subset_size = gn.length := min_eq_left hfull
    have hrange : pcaSubsampleIdx choice = List.range gn.length :=
      sorted_nodup_bounded_eq_range _ _ hsorted hnd'
        (by rw [hlen', hmin]) hbound'
    show npTake gn (pcaSubsampleIdx choice) = gn
    rw [hrange]
    exact filterMap_get_range gn

/-- Witness for C4: with 30 variants and `subset_size = 50`, a full
no-replacement draw (here the indices in reverse order) is sorted back into
ascending order and all 30 variants are selected unchanged. -/
theorem pca_subsample_spec_witness :
    choiceContract (List.range 30 : List Nat).length
      (min (List.range 30 : List Nat).length 50) ((List.range 30).reverse) ∧
    pcaSubsample (List.range 30) ((List.range 30).reverse) = List.range 30 :=
  ⟨by decide,
   (pca_subsample_spec (List.range 30) 50 ((List.range 30).reverse)
     (by decide)).2.2.2.2.2 (by decide)⟩

/-! ### Claim theorems: genotype-array dispatch -/

/-- Counterexample to C9 as stated: with an unrecognized backend kind but a
single callset, `get_genotype_array_concat` does not raise the `ValueError`;
it delegates to `get_genotype_array` and returns no result. -/
theorem concat_singleton_unrecognized_no_error :
    get_genotype_array_concat [⟨none⟩] 3 = Except.ok none := by
  rfl

/-- C9 (amended): for an unrecognized backend kind, `get_genotype_array`
returns no result; `get_genotype_array_concat` raises the `ValueError` when
given other than exactly one callset, and with exactly one callset delegates
to `get_genotype_array`, returning no result instead of raising; in neither
case is a usable genotype-array handle produced. -/
theorem genotype_dispatch_unrecognized (callset : Callset)
    (callsets : List Callset) (t : Nat)
    (h0 : t ≠ GENOTYPE_ARRAY_NORMAL) (h1 : t ≠ GENOTYPE_ARRAY_CHUNKED)
    (h2 : t ≠ GENOTYPE_ARRAY_DASK) :
    get_genotype_array callset t = none ∧
    (callsets.length ≠ 1 →
      get_genotype_array_concat callsets t =
        Except.error "Error: Invalid option specified for genotype_array_type.") ∧
    (callsets.length = 1 →
      get_genotype_array_concat callsets t = Except.ok none) := by
  refine ⟨?_, ?_, ?_⟩
  · simp [get_genotype_array, h0, h1, h2]
  · intro hlen
    simp [get_genotype_array_concat, hlen, h0, h1, h2]
  · intro hlen
    simp [get_genotype_array_concat, hlen, get_genotype_array, h0, h1, h2]

/-- Witness for C9 (amended) at backend kind 3: two callsets raise the
`ValueError`, one callset yields no result, and `get_genotype_array` yields
no result. -/
theorem genotype_dispatch_unrecognized_witness :
    get_genotype_array ⟨none⟩ 3 = none ∧
    get_genotype_array_concat [⟨none⟩, ⟨none⟩] 3 =
      Except.error "Error: Invalid option specified for genotype_array_type." ∧
    get_genotype_array_concat [⟨none⟩] 3 = Except.ok none :=
  ⟨(genotype_dispatch_unrecognized ⟨none⟩ [] 3 (by decide) (by decide)
      (by decide)).1,
   (genotype_dispatch_unrecognized ⟨none⟩ [⟨none⟩, ⟨none⟩] 3 (by decide)
      (by decide) (by decide)).2.1 (by decide),
   (genotype_dispatch_unrecognized ⟨none⟩ [⟨none⟩] 3 (by decide) (by decide)
      (by decide)).2.2 rfl⟩

/-! ### Claim theorems: orchestrator run loop -/

theorem runOnce_ok (conf : BenchConf) (k : Nat)
    (hm : conf.benchmark_data_input = "vcf" ∨
      conf.benchmark_data_input = "zarr") :
    runOnce conf true true k =
      (RunEvent.wipe :: RunEvent.setRun k :: runEventsOk conf, none) := by
  rcases hm with h | h <;> simp [runOnce, runEventsOk, h]

theorem runLoop_ok (conf : BenchConf)
    (hm : conf.benchmark_data_input = "vcf" ∨
      conf.benchmark_data_input = "zarr") :
    ∀ ks : List Nat,
      runLoop conf true true ks =
        (ks.flatMap fun k => RunEvent.wipe :: RunEvent.setRun k :: runEventsOk conf,
         none) := by
  intro ks
  induction ks with
  | nil => simp [runLoop]
  | cons k ks ih =>
    rw [runLoop, runOnce_ok conf k hm, ih]
    simp

theorem runNumbers_append (a b : List RunEvent) :
    runNumbers (a ++ b) = runNumbers a ++ runNumbers b := by
  simp [runNumbers, List.filterMap_append]

theorem runNumbers_runEventsOk (conf : BenchConf) :
    runNumbers (runEventsOk conf) = [] := by
  unfold runNumbers runEventsOk loadAndBench
  split_ifs <;> rfl

theorem runNumbers_bind (conf : BenchConf) :
    ∀ ks : List Nat,
      runNumbers (ks.flatMap fun k =>
        RunEvent.wipe :: RunEvent.setRun k :: runEventsOk conf) = ks := by
  intro ks
  induction ks with
  | nil => rfl
  | cons k ks ih =>
    rw [List.flatMap_cons, runNumbers_append]
    rw [show runNumbers (RunEvent.wipe :: RunEvent.setRun k :: runEventsOk conf)
        = k :: runNumbers (runEventsOk conf) from rfl]
    rw [runNumbers_runEventsOk, ih]
    rfl

theorem wipe_not_mem_runEventsOk (conf : BenchConf) :
    RunEvent.wipe ∉ runEventsOk conf := by
  unfold runEventsOk loadAndBench
  split_ifs <;> decide

/-- C7: for a valid data-input mode and an existing dataset, the run loop of
`run_benchmark` executes its `benchmark_number_runs` runs to completion (no
`exit`), the run-number values set in the profiler are exactly `1` up to `N`
in strictly increasing order, and the session trace is the concatenation of
one segment per run, each beginning with the wipe of the working Zarr
benchmark directory followed by the run-number update and only then the
mode-resolution events (which contain no further wipe). -/
theorem run_benchmark_run_loop (conf : BenchConf)
    (hm : conf.benchmark_data_input = "vcf" ∨
      conf.benchmark_data_input = "zarr") :
    (run_benchmark (some conf) true true).2 = none ∧
    runNumbers (run_benchmark (some conf) true true).1 =
      List.range' 1 conf.benchmark_number_runs ∧
    (run_benchmark (some conf) true true).1 =
      (List.range' 1 conf.benchmark_number_runs).flatMap
        (fun k => RunEvent.wipe :: RunEvent.setRun k :: runEventsOk conf) ∧
    RunEvent.wipe ∉ runEventsOk conf := by
  have hloop := runLoop_ok conf hm (List.range' 1 conf.benchmark_number_runs)
  have hrun : run_benchmark (some conf) true true =
      runLoop conf true true (List.range' 1 conf.benchmark_number_runs) := rfl
  rw [hrun, hloop]
  exact ⟨rfl, runNumbers_bind conf _, rfl, wipe_not_mem_runEventsOk conf⟩

/-- A benchmark configuration with three runs in "vcf" mode, aggregations
enabled and PCA disabled. -/
def confEx : BenchConf := ⟨3, "vcf", true, false⟩

/-- Witness for C7 at three configured runs in "vcf" mode: the session
completes, the run numbers are 1, 2, 3, and each run's segment starts with
the directory wipe. -/
theorem run_benchmark_run_loop_witness :
    (run_benchmark (some confEx) true true).2 = none ∧
    runNumbers (run_benchmark (some confEx) true true).1 =
      List.range' 1 confEx.benchmark_number_runs ∧
    (run_benchmark (some confEx) true true).1 =
      (List.range' 1 confEx.benchmark_number_runs).flatMap
        (fun k => RunEvent.wipe :: RunEvent.setRun k :: runEventsOk confEx) ∧
    RunEvent.wipe ∉ runEventsOk confEx :=
  run_benchmark_run_loop confEx (Or.inl rfl)

end GenomicsBenchmarks
